import Mathlib

/-!
Verification development for the curso_patrones_cpp repository: shallow
embeddings of the nine educational C++ programs and proofs of the spec's
claims about them.  Machine `int` is modelled as `Int`; the C++ `%` operator
(truncated remainder) is `Int.tmod`; console output is modelled as the list
of printed lines (or printed values); operations whose C++ evaluation would
be undefined behaviour return `Option`.
-/

namespace Curso

/-! ## modulo2/ejercicio2.cpp: FiltroMensajes -/

namespace M2E2

/-- Embeds prefix testing on lists of characters: `esPrefijo needle hay`
is true when `needle` occurs at the start of `hay`. -/
def esPrefijo : List Char → List Char → Bool
  | [], _ => true
  | _ :: _, [] => false
  | a :: as, b :: bs => a == b && esPrefijo as bs

/-- Embeds `std::string::find` over lists of characters: the index of the
first occurrence of the needle in the haystack, `none` standing for
`std::string::npos` (no occurrence). -/
def findCpp (needle : List Char) : List Char → Option Nat
  | [] => if esPrefijo needle [] then some 0 else none
  | c :: rest =>
      if esPrefijo needle (c :: rest) then some 0
      else (findCpp needle rest).map (fun i => i + 1)

/-- Embeds the lambda `msg.find("Error") == 0` passed to `soloErrores`. -/
def filtroError (msg : String) : Bool :=
  findCpp "Error".data msg.data == some 0

/-- Embeds the lambda `msg.find("Info") == 0` passed to `soloInfo`. -/
def filtroInfo (msg : String) : Bool :=
  findCpp "Info".data msg.data == some 0

/-- Embeds class `FiltroMensajes`: the stored message list and predicate. -/
structure FiltroMensajes where
  mensajes_ : List String
  filtro_ : String → Bool

/-- Embeds the loop body of `FiltroMensajes::mostrarFiltrados` in explicit
state-passing style: the object is threaded through every iteration (the
method is `const` and its body only reads `mensajes_` and `filtro_`), and
each message satisfying the predicate is appended to the output. -/
def mostrarFiltradosLoop (st : FiltroMensajes) :
    List String → List String → FiltroMensajes × List String
  | [], out => (st, out)
  | mensaje :: rest, out =>
      if st.filtro_ mensaje then mostrarFiltradosLoop st rest (out ++ [mensaje])
      else mostrarFiltradosLoop st rest out

/-- Embeds a call of `FiltroMensajes::mostrarFiltrados`: the post-state of
the object together with the list of lines it prints. -/
def mostrarFiltrados (st : FiltroMensajes) : FiltroMensajes × List String :=
  mostrarFiltradosLoop st st.mensajes_ []

/-- Embeds the hard-coded message list of `main`. -/
def mensajes : List String :=
  ["Error: conexión fallida",
   "Aviso: batería baja",
   "Info: actualización completada",
   "Error: disco lleno",
   "Info: sesión iniciada"]

/-- Embeds the object `soloErrores` constructed in `main`. -/
def soloErrores : FiltroMensajes := ⟨mensajes, filtroError⟩

/-- Embeds the object `soloInfo` constructed in `main`. -/
def soloInfo : FiltroMensajes := ⟨mensajes, filtroInfo⟩

/-- Embeds the whole standard output of the program, line by line. -/
def salida : List String :=
  ["Mensajes de error:"] ++ (mostrarFiltrados soloErrores).2
    ++ ["", "Mensajes informativos:"] ++ (mostrarFiltrados soloInfo).2

theorem mostrarFiltradosLoop_snd (st : FiltroMensajes) (pending out : List String) :
    (mostrarFiltradosLoop st pending out).2 = out ++ pending.filter st.filtro_ := by
  induction pending generalizing out with
  | nil => simp [mostrarFiltradosLoop]
  | cons m rest ih =>
      by_cases h : st.filtro_ m = true
      · simp [mostrarFiltradosLoop, h, ih]
      · simp [mostrarFiltradosLoop, h, ih]

theorem mostrarFiltradosLoop_fst (st : FiltroMensajes) (pending out : List String) :
    (mostrarFiltradosLoop st pending out).1 = st := by
  induction pending generalizing out with
  | nil => rfl
  | cons m rest ih =>
      by_cases h : st.filtro_ m = true
      · simp [mostrarFiltradosLoop, h, ih]
      · simp [mostrarFiltradosLoop, h, ih]

/-- Helper: the `find == 0` test used by both lambdas is exactly the
prefix test. -/
theorem findCpp_eq_some_zero_iff (needle hay : List Char) :
    (findCpp needle hay == some 0) = esPrefijo needle hay := by
  cases hay with
  | nil => cases h : esPrefijo needle [] <;> simp [findCpp, h]
  | cons c rest =>
      cases h : esPrefijo needle (c :: rest)
      · simp only [findCpp, h, Bool.false_eq_true, if_false]
        cases findCpp needle rest <;> simp
      · simp [findCpp, h]

/-- C1: mostrarFiltrados prints exactly the stored messages satisfying the
stored predicate, in list order; with the hard-coded five messages, the
`soloErrores` instance prints the two Error lines and the `soloInfo`
instance prints the two Info lines, each pair in original order. -/
theorem mostrarFiltrados_filtra_en_orden :
    (∀ (m : List String) (p : String → Bool),
        (mostrarFiltrados ⟨m, p⟩).2 = m.filter p)
    ∧ (mostrarFiltrados soloErrores).2 =
        ["Error: conexión fallida", "Error: disco lleno"]
    ∧ (mostrarFiltrados soloInfo).2 =
        ["Info: actualización completada", "Info: sesión iniciada"] := by
  refine ⟨fun m p => ?_, ?_, ?_⟩
  · simpa using mostrarFiltradosLoop_snd ⟨m, p⟩ m []
  · decide
  · decide

/-- C10: a call of mostrarFiltrados leaves the object unchanged (the stored
message list and predicate are those of the pre-state), so a second call on
the post-state prints the same lines as the first. -/
theorem mostrarFiltrados_no_modifica (st : FiltroMensajes) :
    (mostrarFiltrados st).1 = st
    ∧ (mostrarFiltrados (mostrarFiltrados st).1).2 = (mostrarFiltrados st).2 := by
  have h : (mostrarFiltrados st).1 = st := mostrarFiltradosLoop_fst st st.mensajes_ []
  exact ⟨h, by rw [h]⟩

end M2E2

/-! ## modulo2/ejercicio3.cpp: aplicar_operacion -/

namespace M2E3

/-- Embeds `aplicar_operacion`: applies the passed-in callable to the two
arguments. -/
def aplicar_operacion (a b : Int) (operacion : Int → Int → Int) : Int :=
  operacion a b

/-- Embeds the local `x` of `main`. -/
def x : Int := 10

/-- Embeds the local `y` of `main`. -/
def y : Int := 5

/-- Embeds the local `suma` of `main`. -/
def suma : Int := aplicar_operacion x y (fun a b => a + b)

/-- Embeds the local `resta` of `main`. -/
def resta : Int := aplicar_operacion x y (fun a b => a - b)

/-- Embeds the local `producto` of `main`. -/
def producto : Int := aplicar_operacion x y (fun a b => a * b)

/-- Embeds the whole standard output of the program, line by line. -/
def salida : List String :=
  ["Suma: " ++ toString suma,
   "Resta: " ++ toString resta,
   "Producto: " ++ toString producto]

/-- C6: aplicar_operacion returns the callable applied to its two arguments,
and with the hard-coded inputs x = 10, y = 5 the program prints Suma: 15,
Resta: 5 and Producto: 50, in that order. -/
theorem aplicar_operacion_aplica :
    (∀ (a b : Int) (operacion : Int → Int → Int),
        aplicar_operacion a b operacion = operacion a b)
    ∧ salida = ["Suma: 15", "Resta: 5", "Producto: 50"] :=
  ⟨fun _ _ _ => rfl, by decide⟩

end M2E3

/-! ## modulo2/ejercicio4.cpp: FiltroMultiplo -/

namespace M2E4

/-- Embeds class `FiltroMultiplo`: the stored divisor. -/
structure FiltroMultiplo where
  divisor_ : Int

/-- Embeds `FiltroMultiplo::operator()`, `valor % divisor_ == 0`.  The C++
`%` on `int` is truncated remainder, `Int.tmod`; remainder by zero is
undefined behaviour in C++ and is modelled as `none`. -/
def FiltroMultiplo.operador (f : FiltroMultiplo) (valor : Int) : Option Bool :=
  if f.divisor_ = 0 then none else some (valor.tmod f.divisor_ == 0)

/-- Embeds the hard-coded vector `numeros` of `main`. -/
def numeros : List Int := [3, 4, 5, 6, 7, 8, 9, 10, 12]

/-- Embeds the functor object `esMultiploDe3` constructed in `main`. -/
def esMultiploDe3 : FiltroMultiplo := ⟨3⟩

/-- Embeds the printing loop of `main`: the list of numbers printed, or
`none` if some filter evaluation is undefined behaviour. -/
def bucleFiltro (f : FiltroMultiplo) : List Int → Option (List Int)
  | [] => some []
  | n :: rest => do
      let b ← f.operador n
      let cola ← bucleFiltro f rest
      pure (if b then n :: cola else cola)

theorem natAbs_tmod (a b : Int) :
    (a.tmod b).natAbs = a.natAbs % b.natAbs := by
  cases a <;> cases b <;>
    simp [Int.tmod, Int.natAbs_neg, Nat.succ_eq_add_one] <;> rfl

theorem tmod_eq_zero_iff_dvd (a b : Int) : a.tmod b = 0 ↔ b ∣ a := by
  rw [← Int.natAbs_eq_zero, natAbs_tmod]
  constructor
  · intro h
    exact Int.natAbs_dvd_natAbs.mp (Nat.dvd_of_mod_eq_zero h)
  · intro h
    obtain ⟨c, hc⟩ := Int.natAbs_dvd_natAbs.mpr h
    rw [hc]
    exact Nat.mul_mod_right _ _

/-- C2: a FiltroMultiplo constructed with a non-zero divisor d answers true
on v exactly when d divides v, and the program's loop over the hard-coded
list with divisor 3 prints exactly 3, 6, 9, 12, in original list order. -/
theorem filtroMultiplo_divisibilidad :
    (∀ d v : Int, d ≠ 0 →
        (FiltroMultiplo.operador ⟨d⟩ v = some true ↔ d ∣ v))
    ∧ bucleFiltro esMultiploDe3 numeros = some [3, 6, 9, 12] := by
  constructor
  · intro d v hd
    simp only [FiltroMultiplo.operador, if_neg hd, Option.some.injEq,
      beq_iff_eq]
    exact tmod_eq_zero_iff_dvd v d
  · decide

/-- C2 witness at divisor 3 and value 6. -/
theorem filtroMultiplo_divisibilidad_testigo :
    (FiltroMultiplo.operador ⟨3⟩ 6 = some true ↔ (3 : Int) ∣ 6)
    ∧ bucleFiltro esMultiploDe3 numeros = some [3, 6, 9, 12] :=
  ⟨filtroMultiplo_divisibilidad.1 3 6 (by decide),
   filtroMultiplo_divisibilidad.2⟩

/-- C4: with a non-zero divisor every evaluation of the loop is defined (no
undefined-behaviour branch is reached), and in particular the program's only
instance, constructed with divisor 3, runs the whole hard-coded list without
reaching the remainder-by-zero case. -/
theorem bucleFiltro_sin_fallo :
    (∀ (f : FiltroMultiplo) (l : List Int), f.divisor_ ≠ 0 →
        (bucleFiltro f l).isSome = true)
    ∧ (bucleFiltro esMultiploDe3 numeros).isSome = true := by
  constructor
  · intro f l hf
    induction l with
    | nil => rfl
    | cons n rest ih =>
        simp only [bucleFiltro, FiltroMultiplo.operador, if_neg hf,
          Option.some_bind]
        cases h : bucleFiltro f rest with
        | none => rw [h] at ih; exact absurd ih (by simp)
        | some cola => simp
  · decide

/-- C4 witness at the program's instance and list. -/
theorem bucleFiltro_sin_fallo_testigo :
    (bucleFiltro esMultiploDe3 numeros).isSome = true :=
  bucleFiltro_sin_fallo.1 esMultiploDe3 numeros (by decide)

end M2E4

/-! ## modulo4/ejercicio1.cpp: Configuracion -/

namespace M4E1

/-- Embeds class `Configuracion`: its only field is the parameter string. -/
structure Configuracion where
  parametros_ : String

/-- Embeds `Configuracion::mostrar`: the line it prints (the method is
`const`, so it is a pure function of the object). -/
def Configuracion.mostrar (c : Configuracion) : List String :=
  ["Parámetros: " ++ c.parametros_]

/-- Embeds the static factory `Configuracion::cargarDesdeArchivo`: the
constructed object together with the line it prints. -/
def cargarDesdeArchivo : Configuracion × List String :=
  (⟨"modo=produccion;cache=true"⟩, ["Cargando configuración desde archivo..."])

/-- Operations available on a constructed Configuracion.  `mostrar` is the
only one: the constructor is private and copy construction and copy
assignment are deleted, so no other member access exists. -/
inductive OperacionConfig where
  | mostrar

/-- State transition of one available operation: the post-state of the
object and the lines printed. -/
def pasoConfig (c : Configuracion) : OperacionConfig → Configuracion × List String
  | .mostrar => (c, c.mostrar)

/-- Runs a whole lifetime of operations on a constructed object and returns
the final state. -/
def vidaConfig (c : Configuracion) : List OperacionConfig → Configuracion
  | [] => c
  | op :: rest => vidaConfig (pasoConfig c op).1 rest

/-- C5: the factory always produces the parameter string
modo=produccion;cache=true, and any sequence of available operations leaves
the parameter string of any configuration object unchanged. -/
theorem configuracion_inmutable :
    cargarDesdeArchivo.1.parametros_ = "modo=produccion;cache=true"
    ∧ ∀ (c : Configuracion) (ops : List OperacionConfig),
        (vidaConfig c ops).parametros_ = c.parametros_ := by
  refine ⟨rfl, fun c ops => ?_⟩
  induction ops generalizing c with
  | nil => rfl
  | cons op rest ih => cases op; exact ih c

end M4E1

/-! ## modulo4/ejercicio2.cpp: Instrumento -/

namespace M4E2

/-- Embeds the Instrumento hierarchy: the dynamic type of an object held
through a pointer to the abstract base class. -/
inductive Instrumento where
  | piano
  | guitarra

/-- Embeds the virtual call `instrumento->tocar()`: dispatch on the dynamic
type, each override printing its own line. -/
def Instrumento.tocar : Instrumento → String
  | .piano => "El piano toca una melodía clásica."
  | .guitarra => "La guitarra toca un solo de rock."

/-- Embeds the vector `orquesta` of `main`, in insertion order. -/
def orquesta : List Instrumento := [.piano, .guitarra]

/-- Embeds the loop of `main`: one printed line per element, in order. -/
def bucleTocar : List Instrumento → List String
  | [] => []
  | i :: rest => i.tocar :: bucleTocar rest

/-- Embeds the whole standard output of the program, line by line. -/
def salida : List String := bucleTocar orquesta

end M4E2

/-! ## modulo4/ejercicio3.cpp: Reproducible -/

namespace M4E3

/-- Embeds the Reproducible hierarchy: the dynamic type of an object held
through a pointer to the pure interface. -/
inductive Reproducible where
  | radio
  | televisor

/-- Embeds the virtual call `dispositivo->reproducir()`. -/
def Reproducible.reproducir : Reproducible → String
  | .radio => "Reproduciendo música en la radio"
  | .televisor => "Reproduciendo sonido del televisor"

/-- Embeds `iniciarReproduccion`: its loop prints one line per device, in
list order. -/
def iniciarReproduccion : List Reproducible → List String
  | [] => []
  | d :: rest => d.reproducir :: iniciarReproduccion rest

/-- Embeds the vector `aparatos` of `main`, in insertion order. -/
def aparatos : List Reproducible := [.radio, .televisor]

/-- Embeds the whole standard output of the program, line by line. -/
def salida : List String := iniciarReproduccion aparatos

/-- C8: iterating base-interface pointers invokes each element's override in
insertion order: the instruments demo prints the piano line then the guitar
line; iniciarReproduccion prints, for any device list, one line per device
in list order, and here the radio line then the televisor line. -/
theorem despacho_polimorfico_en_orden :
    M4E2.salida =
      ["El piano toca una melodía clásica.", "La guitarra toca un solo de rock."]
    ∧ (∀ dispositivos : List Reproducible,
        iniciarReproduccion dispositivos =
          dispositivos.map Reproducible.reproducir)
    ∧ salida =
      ["Reproduciendo música en la radio", "Reproduciendo sonido del televisor"] := by
  refine ⟨rfl, fun dispositivos => ?_, rfl⟩
  induction dispositivos with
  | nil => rfl
  | cons d rest ih => simp [iniciarReproduccion, ih]

end M4E3

/-! ## modulo4/ejercicio4: Calculadora -/

namespace M4E4

/-- Embeds the Calculadora hierarchy of Calculadora.h and
CalculadoraMultiplicacion.h: the dynamic type of an object held through a
pointer to the abstract interface.  CalculadoraMultiplicacion is the only
concrete class. -/
inductive Calculadora where
  | multiplicacion

/-- Embeds the virtual call `calc->calcular(a, b)`: dispatch on the dynamic
type; the CalculadoraMultiplicacion override returns `a * b`. -/
def Calculadora.calcular : Calculadora → Int → Int → Int
  | .multiplicacion, a, b => a * b

/-- Embeds the pointer `calc` of `main` (renamed: `calc` is reserved in
Lean): interface pointer, concrete instance. -/
def calcObj : Calculadora := .multiplicacion

/-- Embeds the local `resultado` of `main`. -/
def resultado : Int := calcObj.calcular 6 7

/-- Embeds the whole standard output of the program, line by line. -/
def salida : List String := ["Resultado: " ++ toString resultado]

/-- C7: calcular reached through the abstract interface returns the product
of its two arguments for every pair of integers, and the hard-coded call
calcular(6, 7) makes the program print exactly Resultado: 42. -/
theorem calcular_multiplica :
    (∀ a b : Int, Calculadora.calcular .multiplicacion a b = a * b)
    ∧ salida = ["Resultado: 42"] :=
  ⟨fun _ _ => rfl, by decide⟩

end M4E4

/-! ## Repository-level facts -/

namespace Repo

/-- Syntactic facts about one source file of the repository: its path,
whether it defines `main`, which local (quoted) headers it includes, and
whether its curly braces are balanced. -/
structure Archivo where
  ruta : String
  tieneMain : Bool
  incluyeLocales : List String
  llavesEquilibradas : Bool

/-- The nine source files of the repository with their syntactic facts,
read off the sources.  `modulo2/ejercicio4.cpp` ends right after
`std::cout << '\n';` with six opening and five closing braces: the closing
brace of `main` is missing.  In `modulo4/ejercicio4/`, only `main.cpp`
defines `main`; it includes `CalculadoraMultiplicacion.h`, which in turn
includes `Calculadora.h`. -/
def archivos : List Archivo :=
  [⟨"ejercicios/modulo2/ejercicio2.cpp", true, [], true⟩,
   ⟨"ejercicios/modulo2/ejercicio3.cpp", true, [], true⟩,
   ⟨"ejercicios/modulo2/ejercicio4.cpp", true, [], false⟩,
   ⟨"ejercicios/modulo4/ejercicio1.cpp", true, [], true⟩,
   ⟨"ejercicios/modulo4/ejercicio2.cpp", true, [], true⟩,
   ⟨"ejercicios/modulo4/ejercicio3.cpp", true, [], true⟩,
   ⟨"ejercicios/modulo4/ejercicio4/Calculadora.h", false, [], true⟩,
   ⟨"ejercicios/modulo4/ejercicio4/CalculadoraMultiplicacion.h", false,
     ["Calculadora.h"], true⟩,
   ⟨"ejercicios/modulo4/ejercicio4/main.cpp", true,
     ["CalculadoraMultiplicacion.h"], true⟩]

/-- A file is a complete self-contained program when it defines `main`,
includes no local header, and its braces are balanced. -/
def programaAutonomo (a : Archivo) : Bool :=
  a.tieneMain && a.incluyeLocales.isEmpty && a.llavesEquilibradas

/-- C3 counterexample: it is not the case that every source file of the
repository is a complete self-contained program; `Calculadora.h` and
`CalculadoraMultiplicacion.h` have no `main`, `main.cpp` depends on a local
header, and `modulo2/ejercicio4.cpp` is missing the closing brace of
`main`. -/
theorem no_todo_archivo_autonomo :
    ¬ ∀ a ∈ archivos, programaAutonomo a = true := by
  decide

/-- C3 amended: exactly the five files modulo2/ejercicio2.cpp,
modulo2/ejercicio3.cpp, modulo4/ejercicio1.cpp, modulo4/ejercicio2.cpp and
modulo4/ejercicio3.cpp are complete self-contained programs; the three
files of modulo4/ejercicio4 form a single program chained by local includes
with `main` only in main.cpp; and modulo2/ejercicio4.cpp has `main` and no
local includes but unbalanced braces. -/
theorem autonomos_exactamente :
    (archivos.filter programaAutonomo).map Archivo.ruta =
      ["ejercicios/modulo2/ejercicio2.cpp",
       "ejercicios/modulo2/ejercicio3.cpp",
       "ejercicios/modulo4/ejercicio1.cpp",
       "ejercicios/modulo4/ejercicio2.cpp",
       "ejercicios/modulo4/ejercicio3.cpp"]
    ∧ (archivos.filter (fun a => a.tieneMain == false)).map Archivo.ruta =
      ["ejercicios/modulo4/ejercicio4/Calculadora.h",
       "ejercicios/modulo4/ejercicio4/CalculadoraMultiplicacion.h"]
    ∧ (archivos.filter (fun a => !a.incluyeLocales.isEmpty)).map Archivo.ruta =
      ["ejercicios/modulo4/ejercicio4/CalculadoraMultiplicacion.h",
       "ejercicios/modulo4/ejercicio4/main.cpp"]
    ∧ (archivos.filter (fun a => !a.llavesEquilibradas)).map Archivo.ruta =
      ["ejercicios/modulo2/ejercicio4.cpp"] := by
  refine ⟨?_, ?_, ?_, ?_⟩ <;> decide

/-- External inputs a process could observe: command-line arguments,
environment variables, file contents, network responses. -/
structure Entorno where
  argumentos : List String
  variablesEntorno : String → Option String
  archivosExternos : String → Option String
  red : String → Option String

/-- The seven programs of the repository. -/
inductive Programa where
  | m2e2
  | m2e3
  | m2e4
  | m4e1
  | m4e2
  | m4e3
  | m4e4

/-- Embeds the whole standard output of modulo2/ejercicio4.cpp: header and
printed numbers on one line (each number followed by a space), or `none` if
some filter evaluation is undefined behaviour. -/
def salidaM2E4 : Option (List String) :=
  (M2E4.bucleFiltro M2E4.esMultiploDe3 M2E4.numeros).map
    (fun ns =>
      ["Múltiplos de 3 (functora): "
        ++ String.join (ns.map (fun n => toString n ++ " "))])

/-- Embeds the whole standard output of modulo4/ejercicio1.cpp: the factory
line then the mostrar line. -/
def salidaM4E1 : List String :=
  M4E1.cargarDesdeArchivo.2 ++ M4E1.cargarDesdeArchivo.1.mostrar

/-- Runs a program in an external environment.  Each `main` takes no
parameters and no program reads arguments, environment variables, files or
the network, so each equation ignores the environment, exactly as the
sources do. -/
def ejecutar : Programa → Entorno → Option (List String)
  | .m2e2, _ => some M2E2.salida
  | .m2e3, _ => some M2E3.salida
  | .m2e4, _ => salidaM2E4
  | .m4e1, _ => some salidaM4E1
  | .m4e2, _ => some M4E2.salida
  | .m4e3, _ => some M4E3.salida
  | .m4e4, _ => some M4E4.salida

/-- C9: every program's output is a fixed value independent of external
input: any two runs of the same program, in any two environments, produce
identical output. -/
theorem salida_independiente_del_entorno :
    ∀ (p : Programa) (e₁ e₂ : Entorno), ejecutar p e₁ = ejecutar p e₂ := by
  intro p e₁ e₂
  cases p <;> rfl

end Repo

end Curso
